import Mathlib

/-!
Verification development for `suite2p/io/server.py` (remote job dispatch).

The Python module is shallowly embedded below:
* a filesystem path is modelled by its `pathlib.Path.parts` component list
  (`List String`); the OS rendering of a path joins the components with the
  host separator character `os.sep` (we treat the root marker, e.g. `"/"` or
  `"Z:"`, as an ordinary leading component, which does not affect any of the
  separator/prefix properties proved here);
* `unix_path` (server.py line 15-16), `str(path).replace(os.sep, "/")`, is a
  character-wise substitution because `os.sep` is a single character;
* `ssh_connect` (lines 18-42) is a state machine over an environment that
  assigns each attempt an outcome; `sys.exit(1)` outcomes and the final
  `return ssh` are the terminal states;
* the body of the per-plane loop of `send_jobs` (lines 91-151) is a function
  from the plane's descriptor data and a remote/local filesystem oracle to
  the list of remote side effects performed (mkdir / sftp put / job submit)
  together with either the rewritten descriptor or the exception that
  escaped the loop body.
-/

namespace Suite2pServer

/-! ### Path rendering and `unix_path` (server.py lines 15-16) -/

/-- Render a component list with the host separator `sep`
(model of `str(path)` for a `pathlib` path with those `parts`). -/
def joinSep (sep : Char) : List String → String
  | [] => ""
  | [p] => p
  | p :: q :: ps => p ++ String.singleton sep ++ joinSep sep (q :: ps)

/-- One character of `str.replace(os.sep, "/")`. -/
def convChar (sep c : Char) : Char := if c = sep then '/' else c

/-- Python `s.replace(os.sep, "/")`: since `os.sep` is a single character this is a
character-wise map. -/
def convStr (sep : Char) (s : String) : String := ⟨s.data.map (convChar sep)⟩

/-- The function `unix_path` (server.py lines 15-16): render with the host separator, then
replace every separator with a forward slash. -/
def unixPath (sep : Char) (parts : List String) : String :=
  convStr sep (joinSep sep parts)

theorem convStr_append (sep : Char) (s t : String) :
    convStr sep (s ++ t) = convStr sep s ++ convStr sep t := by
  simp only [convStr]
  apply congrArg String.mk
  have h : (s ++ t).data = s.data ++ t.data := rfl
  rw [h, List.map_append]

theorem map_convChar_of_not_mem (sep : Char) (l : List Char) (h : sep ∉ l) :
    l.map (convChar sep) = l := by
  induction l with
  | nil => rfl
  | cons c cs ih =>
    simp only [List.mem_cons, not_or] at h
    simp only [List.map_cons, ih h.2]
    have hc : convChar sep c = c := by
      simp only [convChar]
      exact if_neg (fun hc => h.1 hc.symm)
    rw [hc]

theorem convStr_of_not_mem (sep : Char) (s : String) (h : sep ∉ s.data) :
    convStr sep s = s := by
  simp only [convStr]
  rw [map_convChar_of_not_mem sep s.data h]

/-- A component list is `sep`-free when no component contains the host
separator character (an invariant `pathlib` guarantees for `Path.parts`). -/
def sepFree (sep : Char) (parts : List String) : Prop :=
  ∀ p ∈ parts, sep ∉ p.data

instance (sep : Char) (parts : List String) : Decidable (sepFree sep parts) := by
  unfold sepFree; infer_instance

theorem convStr_singleton (sep : Char) :
    convStr sep (String.singleton sep) = String.singleton '/' := by
  simp only [convStr, String.singleton]
  apply congrArg String.mk
  show List.map (convChar sep) [sep] = ['/']
  simp [convChar]

/-- On `sep`-free components, `unix_path` produces exactly the forward-slash
rendering of the path. -/
theorem unixPath_eq_joinSep (sep : Char) (parts : List String)
    (h : sepFree sep parts) : unixPath sep parts = joinSep '/' parts := by
  induction parts with
  | nil => rfl
  | cons p ps ih =>
    cases ps with
    | nil =>
      simp only [unixPath, joinSep]
      exact convStr_of_not_mem sep p (h p (List.mem_cons_self p []))
    | cons q qs =>
      have hp : sep ∉ p.data := h p (by simp)
      have hrest : sepFree sep (q :: qs) := by
        intro x hx; exact h x (List.mem_cons_of_mem p hx)
      simp only [unixPath, joinSep] at ih ⊢
      rw [convStr_append, convStr_append, convStr_of_not_mem sep p hp,
        convStr_singleton, ih hrest]

/-! ### Path translation (server.py lines 59-64)

`nparts = len(Path(local_root).parts)`;
`save_folder_server = Path(server_root) / Path(*Path(save_folder).parts[nparts:])`. -/

/-- The translation of `save_folder` from the local to the remote namespace:
drop the first `nparts` components and graft the remainder onto the server
root (server.py lines 59-62). -/
def translate (server_root : List String) (nparts : Nat) (p : List String) :
    List String :=
  server_root ++ p.drop nparts

/-! ### `ssh_connect` (server.py lines 18-42) -/

/-- Outcome of one `ssh.connect` attempt in the environment. -/
inductive AttemptResult
  | success
  | authFail
  | transientFail
deriving DecidableEq

/-- Terminal state of `ssh_connect`: `connected n` is the `return ssh` after
the `break` on attempt `n`; `authFatal n` is the `sys.exit(1)` in the
`AuthenticationException` handler on attempt `n`; `gaveUp n` is the
`sys.exit(1)` after `i == 30`. -/
inductive ConnectResult
  | connected (attempts : Nat)
  | authFatal (attempts : Nat)
  | gaveUp (attempts : Nat)
deriving DecidableEq

/-- The `while True` loop of `ssh_connect`, with counter `i` as in the
source (attempt number is `i + 1`); `env i` is what `ssh.connect` does on
that attempt.  The loop of the source terminates on every environment (each
non-terminal iteration increments `i`, and `i = 30` is terminal), so the
`fuel` parameter is only a structural-recursion device; `ssh_connect` below
supplies enough fuel that the `none` (fuel ran out) case is unreachable. -/
def connectLoop (env : Nat → AttemptResult) : Nat → Nat → Option ConnectResult
  | 0, _ => none
  | fuel + 1, i =>
    match env i with
    | AttemptResult.success => some (ConnectResult.connected (i + 1))
    | AttemptResult.authFail => some (ConnectResult.authFatal (i + 1))
    | AttemptResult.transientFail =>
      if i + 1 = 30 then some (ConnectResult.gaveUp (i + 1))
      else connectLoop env fuel (i + 1)

/-- The function `ssh_connect` (server.py lines 18-42): run the loop from `i = 0`. -/
def ssh_connect (env : Nat → AttemptResult) : Option ConnectResult :=
  connectLoop env 30 0

/-- The fuel never runs out: starting from `i = 0` with fuel 30 the loop
always reaches a terminal state of the source program. -/
theorem connectLoop_total (env : Nat → AttemptResult) :
    ∀ fuel i, i + fuel = 30 → i < 30 → connectLoop env fuel i ≠ none := by
  intro fuel
  induction fuel with
  | zero => intro i hsum hlt; omega
  | succ f ih =>
    intro i hsum hlt
    simp only [connectLoop]
    cases env i with
    | success => simp
    | authFail => simp
    | transientFail =>
      by_cases h30 : i + 1 = 30
      · simp [h30]
      · simp only [if_neg h30]
        have hsum : i + 1 + f = 30 := by omega
        have hlt : i + 1 < 30 := by omega
        exact ih (i + 1) hsum hlt

theorem ssh_connect_isSome (env : Nat → AttemptResult) :
    ssh_connect env ≠ none :=
  connectLoop_total env 30 0 rfl (by omega)

/-! ### Decimal rendering: characters of `Nat.repr`
(the embedding of Python's `"plane%d" % ipl`, server.py line 101, uses
`"plane" ++ Nat.repr ipl`; these lemmas show no path separator can occur in
the digits). -/

theorem toDigitsCore_not_mem (sep : Char)
    (hs : ∀ d : Nat, d < 10 → Nat.digitChar d ≠ sep) :
    ∀ fuel n acc, sep ∉ acc → sep ∉ Nat.toDigitsCore 10 fuel n acc := by
  intro fuel
  induction fuel with
  | zero =>
    intro n acc h
    simpa [Nat.toDigitsCore] using h
  | succ f ih =>
    intro n acc h
    simp only [Nat.toDigitsCore]
    have hd : sep ∉ Nat.digitChar (n % 10) :: acc := by
      intro hmem
      rcases List.mem_cons.mp hmem with h1 | h1
      · exact hs (n % 10) (Nat.mod_lt n (by omega)) h1.symm
      · exact h h1
    split
    · exact hd
    · exact ih (n / 10) (Nat.digitChar (n % 10) :: acc) hd

/-- A character that is none of the ten decimal digit characters never
occurs in the decimal rendering of a natural number. -/
theorem sep_not_mem_repr (sep : Char)
    (h : ∀ d : Nat, d < 10 → Nat.digitChar d ≠ sep) (n : Nat) :
    sep ∉ (Nat.repr n).data := by
  show sep ∉ Nat.toDigits 10 n
  exact toDigitsCore_not_mem sep h (n + 1) n [] (by simp)

/-! ### The remote existence probe (server.py lines 108-114)

```
copy = False
try:
    ftp_client.stat(op["save_path"])
except IOError:
    print("copying files")
    ftp_client.mkdir(op["save_path"])
    copy = True
```

The remote filesystem layer is paramiko's SFTP client.  Its status decoder
turns every SFTP failure status into an `IOError`
(`SFTP_NO_SUCH_FILE → IOError(errno.ENOENT, ...)`,
`SFTP_PERMISSION_DENIED → IOError(errno.EACCES, ...)`, any other status →
`IOError(text)`), and in Python 3 `IOError` is an alias of `OSError`, of
which `PermissionError` and `FileNotFoundError` are subclasses.  Exceptions
that do not derive from `OSError` — e.g. `paramiko.SSHException` when the
session drops mid-request — are not caught by `except IOError` and escape. -/

/-- Classification of an exception raised by the remote `stat`. -/
inductive RemoteErr
  | noSuchFile
  | permissionDenied
  | otherSFTP
  | sshFailure
deriving DecidableEq

/-- Whether the Python exception is an instance of `IOError` (= `OSError`):
true for every SFTP status failure (paramiko raises them all as `IOError`),
false for session-level failures such as `SSHException`. -/
def isIOError : RemoteErr → Bool
  | RemoteErr.noSuchFile => true
  | RemoteErr.permissionDenied => true
  | RemoteErr.otherSFTP => true
  | RemoteErr.sshFailure => false

/-- The probe of server.py lines 108-114: `none` (stat succeeded) means the
directory is already there (`copy = False`); an exception caught by
`except IOError` means `mkdir` + `copy = True`; any other exception
escapes the `try`. -/
def probe : Option RemoteErr → Except RemoteErr Bool
  | none => Except.ok false
  | some e => if isIOError e then Except.ok true else Except.error e

/-! ### The per-plane loop body of `send_jobs` (server.py lines 91-151) -/

/-- The data of one unit of work that the loop body reads: the remote save
root and folder name computed on lines 61-64, the plane index parsed on
line 92, the plane directory (`pdir`, holding `ops.npy`), the descriptor's
original `fast_disk` (line 96), and which optional keys the descriptor
contains (`"raw_file" in op`, `"raw_file_chan2" in op`,
`"reg_file_chan2" in op`). -/
structure PlaneInputs where
  save_path0_server : List String
  save_folder_name : String
  ipl : Nat
  pdir : List String
  fast_disk_orig : List String
  has_raw : Bool
  has_raw_chan2 : Bool
  has_reg_chan2 : Bool
deriving DecidableEq

/-- Components of `save_path = save_path0_server / save_folder_name / ("plane%d" % ipl)`
(server.py line 101). -/
def savePathParts (inp : PlaneInputs) : List String :=
  inp.save_path0_server ++ [inp.save_folder_name, "plane" ++ Nat.repr inp.ipl]

/-- The path whose size the code actually stats for the memory request
(server.py line 141): `Path(op["fast_disk"]) / "data_raw.bin"`, where
`op["fast_disk"]` was reassigned on line 103 to the REMOTE-style
`unix_path(save_path)`; re-parsing that forward-slash string yields the
`save_path` components again, so the stat targets the remote-style path on
the local machine, and always the raw-data filename. -/
def sizingParts (inp : PlaneInputs) : List String :=
  savePathParts inp ++ ["data_raw.bin"]

/-- Modelled from the spec: the sizing stat the spec prescribes (spec §4.4
step 8, absent from the code) — "stat on the local copy used for sizing,
specifically the raw-data file if present, else the registered-data file",
i.e. under the descriptor's original local `fast_disk`. -/
def sizingPartsSpec (inp : PlaneInputs) : List String :=
  inp.fast_disk_orig ++ [if inp.has_raw then "data_raw.bin" else "data.bin"]

/-- The path-valued keys of the descriptor after the loop body rewrote them
(`op["..."] = ...` assignments).  A chan2 field is `none` when the code
leaves that key untouched. -/
structure OpsPaths where
  save_path0 : String
  save_folder : String
  save_path : String
  fast_disk : String
  ops_path : String
  reg_file : String
  raw_file : Option String
  raw_file_chan2 : Option String
  reg_file_chan2 : Option String
deriving DecidableEq

/-- The pure path-rewriting part of the loop body (server.py lines 99-104,
115, 117, 121, 129): every assignment of a rewritten key. -/
def rewriteOps (sep : Char) (inp : PlaneInputs) : OpsPaths :=
  { save_path0 := unixPath sep inp.save_path0_server
    save_folder := inp.save_folder_name
    save_path := unixPath sep (savePathParts inp)
    fast_disk := unixPath sep (savePathParts inp)
    ops_path := unixPath sep (savePathParts inp ++ ["ops.npy"])
    reg_file := unixPath sep (savePathParts inp ++ ["data.bin"])
    raw_file :=
      if inp.has_raw then
        some (unixPath sep (savePathParts inp ++ ["data_raw.bin"]))
      else none
    raw_file_chan2 :=
      if inp.has_raw && inp.has_raw_chan2 then
        some (unixPath sep (savePathParts inp ++ ["data_chan2_raw.bin"]))
      else none
    reg_file_chan2 :=
      if !inp.has_raw && inp.has_reg_chan2 then
        some (unixPath sep (savePathParts inp ++ ["data_chan2.bin"]))
      else none }

/-! ### Memory request (server.py lines 141, 146-149)

`bin_size = os.path.getsize(...) / 1e6` then `-M {int(mem_request_multiplier
* bin_size)}`.  The Python arithmetic is on floats; we model it with exact
rationals (IEEE rounding is monotone, so the orderings proved below agree
with the float computation), and Python's `int()` truncates toward zero. -/

/-- Python `int()` on a rational: truncation toward zero. -/
def pyInt (q : ℚ) : Int := if 0 ≤ q then ⌊q⌋ else -⌊-q⌋

/-- The `-M` value of the `bsub` command for a file of `size` bytes:
`int(mem_request_multiplier * (size / 1e6))` (server.py lines 141 and 148). -/
def memRequest (mult : ℚ) (size : Nat) : Int :=
  pyInt (mult * ((size : ℚ) / 1000000))

/-! ### Remote side effects and the loop body -/

/-- The batch-submission command of server.py lines 146-149, by fields:
`bsub -n {n_cores} -J test_s2p{ipl} -o out{ipl}.txt -e error{ipl}.log
-M {mem} {lsfargs} "{home}/run_script.sh i{ops_path}i > log{ipl}.txt"`. -/
structure SubmitCmd where
  n_cores : Nat
  ipl : Nat
  mem : Int
  lsfargs : String
  home : String
  ops_path : String
deriving DecidableEq

/-- A remote side effect performed by the loop body: `ftp_client.mkdir`
(line 113), `ftp_client.put` of a local file (by its components) to a
remote path string (lines 119, 123, 127, 131, 138), or the job submission
`ssh.exec_command(run_command)` (line 150). -/
inductive Action
  | mkdir (remote : String)
  | put (src : List String) (dst : String)
  | submit (cmd : SubmitCmd)
deriving DecidableEq

def isPut : Action → Bool
  | Action.put _ _ => true
  | _ => false

def isSubmit : Action → Bool
  | Action.submit _ => true
  | _ => false

/-- A transfer of registered (post-registration) binary data: the local
source file is `data.bin` or `data_chan2.bin` (server.py lines 127, 131). -/
def isRegPut : Action → Bool
  | Action.put src _ =>
    decide (src.getLast? = some "data.bin" ∨ src.getLast? = some "data_chan2.bin")
  | _ => false

/-- A transfer of raw (pre-registration) binary data: the local source file
is `data_raw.bin` or `data_raw_chan2.bin` (server.py lines 119, 123). -/
def isRawPut : Action → Bool
  | Action.put src _ =>
    decide (src.getLast? = some "data_raw.bin" ∨
      src.getLast? = some "data_raw_chan2.bin")
  | _ => false

/-- What the outside world answers during one loop iteration: the outcome
of the remote `stat` (line 110), the local `os.path.getsize` oracle
(line 141, `none` = the file does not exist locally and `getsize` raises
`OSError`), and the remote `echo $HOME` answer (line 145). -/
structure PlaneEnv where
  statRemote : Option RemoteErr
  localSize : List String → Option Nat
  remoteHome : String

/-- An exception escaping the loop body: an uncaught remote exception from
the `stat` (line 110), or the `OSError` of `os.path.getsize` on a missing
file (line 141). -/
inductive RunError
  | remote (e : RemoteErr)
  | oserror (missing : List String)
deriving DecidableEq

/-- The guarded binary transfers of server.py lines 116-132: in the
raw branch, `data_raw.bin` (line 119) and, when `raw_file_chan2` is a key,
`data_raw_chan2.bin` (line 123); in the registered branch, `data.bin`
(line 127) and, when `reg_file_chan2` is a key, `data_chan2.bin`
(line 131).  Each `put` is guarded by `if copy`. -/
def binTransfers (sep : Char) (inp : PlaneInputs) (copy : Bool) : List Action :=
  if inp.has_raw then
    (if copy then
      [Action.put (inp.fast_disk_orig ++ ["data_raw.bin"])
        (unixPath sep (savePathParts inp ++ ["data_raw.bin"]))]
    else []) ++
    (if inp.has_raw_chan2 then
      (if copy then
        [Action.put (inp.fast_disk_orig ++ ["data_raw_chan2.bin"])
          (unixPath sep (savePathParts inp ++ ["data_chan2_raw.bin"]))]
      else [])
    else [])
  else
    (if copy then
      [Action.put (inp.fast_disk_orig ++ ["data.bin"])
        (unixPath sep (savePathParts inp ++ ["data.bin"]))]
    else []) ++
    (if inp.has_reg_chan2 then
      (if copy then
        [Action.put (inp.fast_disk_orig ++ ["data_chan2.bin"])
          (unixPath sep (savePathParts inp ++ ["data_chan2.bin"]))]
      else [])
    else [])

/-- The `bsub` submission of server.py lines 145-151 for a sizing stat that
returned `sz` bytes. -/
def submitAction (sep : Char) (n_cores : Nat) (mult : ℚ) (lsfargs : String)
    (inp : PlaneInputs) (env : PlaneEnv) (sz : Nat) : Action :=
  Action.submit
    { n_cores := n_cores, ipl := inp.ipl, mem := memRequest mult sz,
      lsfargs := lsfargs, home := env.remoteHome,
      ops_path := (rewriteOps sep inp).ops_path }

/-- The body of the per-plane loop of `send_jobs` (server.py lines 93-151):
probe the remote directory (108-114, `mkdir` + `copy = True` on a caught
`IOError`), rewrite the descriptor paths (99-104, 115-132), perform the
`copy`-guarded binary transfers (116-132), save the descriptor locally
(135, not a transfer) and `put` it if `copy` (136-138), stat the sizing
file (141), and submit the batch job (145-151).  Returns the remote side
effects performed in order, paired with the rewritten descriptor on
success or the exception that escaped the body. -/
def planeBody (sep : Char) (n_cores : Nat) (mult : ℚ) (lsfargs : String)
    (inp : PlaneInputs) (env : PlaneEnv) :
    List Action × Except RunError OpsPaths :=
  match probe env.statRemote with
  | Except.error e => ([], Except.error (RunError.remote e))
  | Except.ok copy =>
    let acts :=
      (if copy then [Action.mkdir (unixPath sep (savePathParts inp))] else [])
      ++ binTransfers sep inp copy
      ++ (if copy then
            [Action.put (inp.pdir ++ ["ops.npy"]) ((rewriteOps sep inp).ops_path)]
          else [])
    match env.localSize (sizingParts inp) with
    | none => (acts, Except.error (RunError.oserror (sizingParts inp)))
    | some sz =>
      (acts ++ [submitAction sep n_cores mult lsfargs inp env sz],
       Except.ok (rewriteOps sep inp))

/-! ### Natural sort (server.py line 90)

`pdirs = natsorted(glob.glob(save_folder + "/*/"))`.  `natsorted` is the
external `natsort` library's stable natural sort: each string is keyed by
splitting it into maximal runs of digits and non-digits, a digit run
comparing as its numeric value.  Modelled here from that documented
behaviour (the library is an external collaborator, not part of this
repository). -/

/-- One chunk of a natural-sort key: a literal text run or a numeric run. -/
def flushChunk (isNum : Bool) (run : List Char) : List (Sum String Nat) :=
  if run.isEmpty then []
  else if isNum then
    [Sum.inr (run.foldl (fun acc c => 10 * acc + (c.toNat - 48)) 0)]
  else [Sum.inl (String.mk run)]

/-- Split a character list into maximal digit / non-digit runs
(`isNum`, `run` accumulate the current run). -/
def natChunksAux : List Char → Bool → List Char → List (Sum String Nat)
  | [], isNum, run => flushChunk isNum run
  | c :: cs, isNum, run =>
    if run.isEmpty then natChunksAux cs c.isDigit [c]
    else if c.isDigit = isNum then natChunksAux cs isNum (run ++ [c])
    else flushChunk isNum run ++ natChunksAux cs c.isDigit [c]

/-- The natural-sort key of a string. -/
def natKey (s : String) : List (Sum String Nat) := natChunksAux s.data true []

/-- Code-point lexicographic strict comparison of character lists (the
comparison Python applies to the text runs of a natural-sort key). -/
def charsLt : List Char → List Char → Bool
  | _, [] => false
  | [], _ :: _ => true
  | x :: xs, y :: ys =>
    if x.toNat < y.toNat then true
    else if y.toNat < x.toNat then false
    else charsLt xs ys

/-- Strict comparison of two key chunks: numeric runs compare numerically;
a numeric run sorts before a text run. -/
def chunkLt : Sum String Nat → Sum String Nat → Bool
  | Sum.inr m, Sum.inr n => m < n
  | Sum.inl s, Sum.inl t => charsLt s.data t.data
  | Sum.inr _, Sum.inl _ => true
  | Sum.inl _, Sum.inr _ => false

/-- Lexicographic strict comparison of two keys. -/
def keyLt : List (Sum String Nat) → List (Sum String Nat) → Bool
  | _, [] => false
  | [], _ :: _ => true
  | a :: as, b :: bs =>
    if chunkLt a b then true else if chunkLt b a then false else keyLt as bs

/-- Whether `s` sorts no later than `t` in natural order. -/
def natLe (s t : String) : Bool := !keyLt (natKey t) (natKey s)

def insertLe (le : String → String → Bool) (x : String) :
    List String → List String
  | [] => [x]
  | y :: ys => if le x y then x :: y :: ys else y :: insertLe le x ys

def sortLe (le : String → String → Bool) : List String → List String
  | [] => []
  | x :: xs => insertLe le x (sortLe le xs)

/-- Model of the natsort library's `natsorted` (server.py line 90): a
stable sort by natural-sort key. -/
def natsorted (l : List String) : List String := sortLe natLe l

/-! ### Helper lemmas about the loop body -/

theorem getLast?_append_single {α : Type} (l : List α) (a : α) :
    (l ++ [a]).getLast? = some a :=
  List.getLast?_concat l

/-- Without `copy`, no binary transfer happens (every `put` of lines
116-132 is guarded by `if copy`). -/
theorem binTransfers_no_copy (sep : Char) (inp : PlaneInputs) :
    binTransfers sep inp false = [] := by
  unfold binTransfers
  cases hr : inp.has_raw <;>
    cases h2 : inp.has_raw_chan2 <;>
      cases h3 : inp.has_reg_chan2 <;> simp

/-- Shape of the loop body when the probe escapes with an uncaught
exception: nothing has been done yet. -/
theorem planeBody_probe_error (sep : Char) (n_cores : Nat) (mult : ℚ)
    (lsfargs : String) (inp : PlaneInputs) (env : PlaneEnv) (e : RemoteErr)
    (hp : probe env.statRemote = Except.error e) :
    planeBody sep n_cores mult lsfargs inp env =
      ([], Except.error (RunError.remote e)) := by
  unfold planeBody
  rw [hp]

/-- Shape of the performed actions when the probe yields a `copy`
decision. -/
theorem planeBody_acts_eq (sep : Char) (n_cores : Nat) (mult : ℚ)
    (lsfargs : String) (inp : PlaneInputs) (env : PlaneEnv) (copy : Bool)
    (hp : probe env.statRemote = Except.ok copy) :
    (planeBody sep n_cores mult lsfargs inp env).1 =
      ((if copy then [Action.mkdir (unixPath sep (savePathParts inp))] else [])
        ++ binTransfers sep inp copy
        ++ (if copy then
              [Action.put (inp.pdir ++ ["ops.npy"])
                ((rewriteOps sep inp).ops_path)]
            else []))
      ++ (match env.localSize (sizingParts inp) with
          | none => []
          | some sz => [submitAction sep n_cores mult lsfargs inp env sz]) := by
  unfold planeBody
  rw [hp]
  cases hsz : env.localSize (sizingParts inp) <;> simp

/-- The descriptor returned on success is exactly the rewrite of the
paths. -/
theorem planeBody_ok_rewriteOps (sep : Char) (n_cores : Nat) (mult : ℚ)
    (lsfargs : String) (inp : PlaneInputs) (env : PlaneEnv) (op : OpsPaths)
    (h : (planeBody sep n_cores mult lsfargs inp env).2 = Except.ok op) :
    op = rewriteOps sep inp := by
  unfold planeBody at h
  cases hp : probe env.statRemote with
  | error e => rw [hp] at h; simp at h
  | ok copy =>
    rw [hp] at h
    simp only at h
    cases hsz : env.localSize (sizingParts inp) with
    | none => rw [hsz] at h; simp at h
    | some sz => rw [hsz] at h; simp at h; exact h.symm

theorem sepFree_append (sep : Char) (a b : List String)
    (ha : sepFree sep a) (hb : sepFree sep b) : sepFree sep (a ++ b) := by
  intro p hp
  rcases List.mem_append.mp hp with h | h
  exacts [ha p h, hb p h]

/-- The two real host separator conventions never occur inside the
components the loop body appends (`plane<digits>`, `ops.npy`, the binary
filenames). -/
theorem sep_not_mem_plane_name (sep : Char) (hsep : sep = '/' ∨ sep = '\\')
    (n : Nat) : sep ∉ ("plane" ++ Nat.repr n).data := by
  intro hmem
  have hdata : ("plane" ++ Nat.repr n).data =
      ("plane" : String).data ++ (Nat.repr n).data := rfl
  rw [hdata] at hmem
  rcases List.mem_append.mp hmem with h | h
  · rcases hsep with h1 | h1 <;> (subst h1; revert h; decide)
  · rcases hsep with h1 | h1 <;>
      (subst h1; exact sep_not_mem_repr _ (by decide) n h)

theorem sepFree_savePathParts (sep : Char) (hsep : sep = '/' ∨ sep = '\\')
    (inp : PlaneInputs) (hroot : sepFree sep inp.save_path0_server)
    (hname : sep ∉ inp.save_folder_name.data) :
    sepFree sep (savePathParts inp) := by
  unfold savePathParts
  apply sepFree_append sep _ _ hroot
  intro p hp
  rcases List.mem_cons.mp hp with h | h
  · subst h; exact hname
  · rcases List.mem_cons.mp h with h1 | h1
    · subst h1; exact sep_not_mem_plane_name sep hsep inp.ipl
    · simp at h1

/-! ## Claim theorems -/

/-- C3: the connect operation makes at most 30 attempts — after 30
consecutive transient (non-authentication) failures `ssh_connect` reaches
the fatal `sys.exit(1)` (`gaveUp` after attempt 30), whatever the host
would have done on attempt 31 and later, so a host that would first accept
on attempt 31 never yields a successful connection. -/
theorem connect_thirty_transient_failures_fatal (env : Nat → AttemptResult)
    (h : ∀ j, j < 30 → env j = AttemptResult.transientFail) :
    ssh_connect env = some (ConnectResult.gaveUp 30) := by
  have main : ∀ fuel i, i + fuel = 30 → i < 30 →
      connectLoop env fuel i = some (ConnectResult.gaveUp 30) := by
    intro fuel
    induction fuel with
    | zero => intro i h1 h2; omega
    | succ f ih =>
      intro i h1 h2
      simp only [connectLoop, h i h2]
      by_cases h30 : i + 1 = 30
      · simp [h30]
      · rw [if_neg h30]
        have hsum : i + 1 + f = 30 := by omega
        have hlt : i + 1 < 30 := by omega
        exact ih (i + 1) hsum hlt
  exact main 30 0 rfl (by omega)

/-- An environment whose host would first accept on attempt 31
(index 30): attempts 1-30 fail transiently. -/
def envAcceptsOn31 : Nat → AttemptResult := fun i =>
  if i < 30 then AttemptResult.transientFail else AttemptResult.success

theorem connect_thirty_transient_failures_fatal_witness :
    (∀ j, j < 30 → envAcceptsOn31 j = AttemptResult.transientFail) ∧
    ssh_connect envAcceptsOn31 = some (ConnectResult.gaveUp 30) :=
  ⟨by decide, connect_thirty_transient_failures_fatal envAcceptsOn31 (by decide)⟩

/-- C4: an authentication-specific failure terminates `ssh_connect` fatally
at once — when the rejection happens on the first attempt (counter `i = 0`)
the result is the `sys.exit(1)` of the `AuthenticationException` handler
with the attempt count still 1: no retry ever happens. -/
theorem connect_auth_failure_immediate (env : Nat → AttemptResult)
    (h : env 0 = AttemptResult.authFail) :
    ssh_connect env = some (ConnectResult.authFatal 1) := by
  simp only [ssh_connect]
  rw [show (30 : Nat) = 29 + 1 from rfl]
  simp only [connectLoop, h]

/-- An environment that rejects the credentials on every attempt. -/
def envAuthRejects : Nat → AttemptResult := fun _ => AttemptResult.authFail

theorem connect_auth_failure_immediate_witness :
    envAuthRejects 0 = AttemptResult.authFail ∧
    ssh_connect envAuthRejects = some (ConnectResult.authFatal 1) :=
  ⟨rfl, connect_auth_failure_immediate envAuthRejects rfl⟩

/-- C6: path translation is ancestor-preserving — for a local root `R`, a
remote root `Rr`, and a path `p` of which `R` is a component prefix,
`translate` yields `Rr` followed by the remainder of `p` relative to `R`;
substituting `R` back for `Rr` recovers `p` exactly, and hence (converting
separators) the rendered paths agree. -/
theorem translate_ancestor_preserving (sep : Char) (R Rr p : List String)
    (h : p.take R.length = R) :
    R ++ (translate Rr R.length p).drop Rr.length = p ∧
    unixPath sep (R ++ (translate Rr R.length p).drop Rr.length) =
      unixPath sep p := by
  have h1 : (translate Rr R.length p).drop Rr.length = p.drop R.length := by
    simp [translate]
  have h2 : R ++ (translate Rr R.length p).drop Rr.length = p := by
    rw [h1]
    have h3 := List.take_append_drop R.length p
    rw [h] at h3
    exact h3
  exact ⟨h2, by rw [h2]⟩

theorem translate_ancestor_preserving_witness :
    (["Z:", "data", "exp1", "suite2p"] : List String).take
      (["Z:", "data"] : List String).length = ["Z:", "data"] ∧
    (["Z:", "data"] ++
      (translate ["", "groups", "lab"] (["Z:", "data"] : List String).length
        ["Z:", "data", "exp1", "suite2p"]).drop
        (["", "groups", "lab"] : List String).length =
      ["Z:", "data", "exp1", "suite2p"] ∧
    unixPath '\\' (["Z:", "data"] ++
      (translate ["", "groups", "lab"] (["Z:", "data"] : List String).length
        ["Z:", "data", "exp1", "suite2p"]).drop
        (["", "groups", "lab"] : List String).length) =
      unixPath '\\' ["Z:", "data", "exp1", "suite2p"]) :=
  ⟨by decide,
   translate_ancestor_preserving '\\' ["Z:", "data"] ["", "groups", "lab"]
     ["Z:", "data", "exp1", "suite2p"] (by decide)⟩

/-- C9: units of work are processed in natural (numeric-aware) sort order
of their folder names — for `plane2, plane10, plane1` the processing order
(the order of the `natsorted` list the loop iterates over) is
`plane1, plane2, plane10`, not the lexical order. -/
theorem natsorted_numeric_order :
    natsorted ["plane2", "plane10", "plane1"] =
      ["plane1", "plane2", "plane10"] := by decide

/-- C10: for a fixed nonnegative memory-request multiplier, the `-M` memory
request of the submission command is monotone nondecreasing in the primary
data file's byte size. -/
theorem memRequest_monotone (mult : ℚ) (hm : 0 ≤ mult) (s1 s2 : Nat)
    (h : s1 < s2) : memRequest mult s1 ≤ memRequest mult s2 := by
  have hc : (s1 : ℚ) ≤ (s2 : ℚ) := by exact_mod_cast h.le
  have hq : mult * ((s1 : ℚ) / 1000000) ≤ mult * ((s2 : ℚ) / 1000000) := by
    gcongr
  have h1 : (0 : ℚ) ≤ mult * ((s1 : ℚ) / 1000000) :=
    mul_nonneg hm (by positivity)
  have h2 : (0 : ℚ) ≤ mult * ((s2 : ℚ) / 1000000) :=
    mul_nonneg hm (by positivity)
  unfold memRequest pyInt
  rw [if_pos h1, if_pos h2]
  exact Int.floor_le_floor hq

theorem memRequest_monotone_witness :
    (0 : ℚ) ≤ 2 ∧ 1000000 < 3000000 ∧
    memRequest 2 1000000 ≤ memRequest 2 3000000 :=
  ⟨by norm_num, by norm_num,
   memRequest_monotone 2 (by norm_num) 1000000 3000000 (by norm_num)⟩

/-! ### Concrete units of work and environments used by the remaining
claims -/

/-- A registered-only unit of work: the descriptor has no raw-data key. -/
def inpDemo : PlaneInputs :=
  { save_path0_server := ["", "groups", "lab", "exp1"]
    save_folder_name := "suite2p"
    ipl := 0
    pdir := ["", "local", "exp1", "suite2p", "plane0"]
    fast_disk_orig := ["", "local", "fastdisk", "suite2p", "plane0"]
    has_raw := false
    has_raw_chan2 := false
    has_reg_chan2 := false }

/-- A raw-data unit of work with a second raw channel. -/
def inpRaw : PlaneInputs :=
  { save_path0_server := ["", "groups", "lab", "exp1"]
    save_folder_name := "suite2p"
    ipl := 3
    pdir := ["", "local", "exp1", "suite2p", "plane3"]
    fast_disk_orig := ["", "local", "fastdisk", "suite2p", "plane3"]
    has_raw := true
    has_raw_chan2 := true
    has_reg_chan2 := false }

/-- The remote stat fails with `SFTP_PERMISSION_DENIED`
(raised by paramiko as `IOError(errno.EACCES, ...)`). -/
def envPermDenied : PlaneEnv :=
  { statRemote := some RemoteErr.permissionDenied
    localSize := fun _ => some 1200000000
    remoteHome := "/home/user" }

/-- The session drops during the stat (`SSHException`, not an
`IOError`). -/
def envSessionDrop : PlaneEnv :=
  { statRemote := some RemoteErr.sshFailure
    localSize := fun _ => some 1000
    remoteHome := "/home/user" }

/-- The remote working directory already exists; local stats succeed. -/
def envRemotePresent : PlaneEnv :=
  { statRemote := none
    localSize := fun _ => some 700000000
    remoteHome := "/home/user" }

/-- The remote working directory exists and the local disk holds exactly
the file the spec says to size (the registered-data file under the
original `fast_disk`); any other local stat raises. -/
def envLocalRegistered : PlaneEnv :=
  { statRemote := none
    localSize := fun p => if p = sizingPartsSpec inpDemo then some 800000000 else none
    remoteHome := "/home/user" }

/-- C1 counterexample: a permission failure from the remote stat is an
`IOError`, so `except IOError` catches it — the loop body performs the
`mkdir` (treats the path as absent, sets the copy flag) and runs to a
successful submission, instead of propagating the permission failure as a
fatal condition as the claim requires. -/
theorem probe_permission_failure_masked :
    Action.mkdir (unixPath '/' (savePathParts inpDemo)) ∈
      (planeBody '/' 8 2 "" inpDemo envPermDenied).1 ∧
    (planeBody '/' 8 2 "" inpDemo envPermDenied).2 =
      Except.ok (rewriteOps '/' inpDemo) := by
  constructor
  · decide
  · rfl

/-- C1 (amended): in the per-plane existence probe, any exception that is
an `IOError` instance — which, with paramiko as the remote filesystem
layer, includes both not-found and permission failures — maps to the
"directory absent, needs copy" decision (the directory is created); only
an exception that is not an `IOError` (e.g. a dropped session) propagates
as a fatal condition. -/
theorem probe_ioerror_copies_non_ioerror_fatal (sep : Char) (n_cores : Nat)
    (mult : ℚ) (lsfargs : String) (inp : PlaneInputs) (env : PlaneEnv)
    (e : RemoteErr) (h : env.statRemote = some e) :
    (isIOError e = false →
      planeBody sep n_cores mult lsfargs inp env =
        ([], Except.error (RunError.remote e))) ∧
    (isIOError e = true →
      Action.mkdir (unixPath sep (savePathParts inp)) ∈
        (planeBody sep n_cores mult lsfargs inp env).1) := by
  constructor
  · intro hio
    apply planeBody_probe_error
    simp [probe, h, hio]
  · intro hio
    have hp : probe env.statRemote = Except.ok true := by
      simp [probe, h, hio]
    rw [planeBody_acts_eq sep n_cores mult lsfargs inp env true hp]
    simp

theorem probe_ioerror_copies_non_ioerror_fatal_witness :
    envSessionDrop.statRemote = some RemoteErr.sshFailure ∧
    ((isIOError RemoteErr.sshFailure = false →
      planeBody '/' 8 2 "" inpDemo envSessionDrop =
        ([], Except.error (RunError.remote RemoteErr.sshFailure))) ∧
    (isIOError RemoteErr.sshFailure = true →
      Action.mkdir (unixPath '/' (savePathParts inpDemo)) ∈
        (planeBody '/' 8 2 "" inpDemo envSessionDrop).1)) :=
  ⟨rfl, probe_ioerror_copies_non_ioerror_fatal '/' 8 2 "" inpDemo
    envSessionDrop RemoteErr.sshFailure rfl⟩

/-- C2 (code bug): the byte size for the memory request is NOT obtained by
a stat on the local copy of the primary data file.  Line 141 stats
`Path(op["fast_disk"]) / "data_raw.bin"`, but `op["fast_disk"]` was
already rewritten on line 103 to the remote-style save path, and the
filename is always the raw one even when the descriptor has no raw-data
key.  At a registered-only plane whose registered-data file exists locally
under the original `fast_disk` (exactly where the spec directs the stat),
the loop body raises `OSError` at the sizing stat instead of sizing the
local file. -/
theorem sizing_stat_not_local_primary_file :
    sizingParts inpDemo =
      ["", "groups", "lab", "exp1", "suite2p", "plane0", "data_raw.bin"] ∧
    sizingPartsSpec inpDemo =
      ["", "local", "fastdisk", "suite2p", "plane0", "data.bin"] ∧
    sizingParts inpDemo ≠ sizingPartsSpec inpDemo ∧
    (planeBody '/' 8 2 "" inpDemo envLocalRegistered).2 =
      Except.error (RunError.oserror (sizingParts inpDemo)) :=
  ⟨by decide, by decide, by decide, rfl⟩

/-! ### C5: idempotent redispatch -/

theorem binTransfers_countP_submit (sep : Char) (inp : PlaneInputs)
    (copy : Bool) : (binTransfers sep inp copy).countP isSubmit = 0 := by
  unfold binTransfers
  cases hr : inp.has_raw <;> cases hc : copy <;>
    cases h2 : inp.has_raw_chan2 <;> cases h3 : inp.has_reg_chan2 <;>
      simp [isSubmit, List.countP_cons]

/-- C5: dispatch is idempotent with respect to file transfer.  When the
remote working directory already exists (the stat succeeds) the loop body
performs no file transfer at all — no `put` of a binary and no `put` of
the descriptor — yet still submits exactly one batch job; when the probe
decides the directory is absent (a caught `IOError`), the descriptor file
and the primary binary are transferred and the job is again submitted
exactly once.  (Hypothesis: the sizing stat of line 141 succeeds;
otherwise the body raises before the submission — see the C2 code bug.) -/
theorem dispatch_idempotent_transfers (sep : Char) (n_cores : Nat)
    (mult : ℚ) (lsfargs : String) (inp : PlaneInputs) (env : PlaneEnv)
    (sz : Nat) (hsz : env.localSize (sizingParts inp) = some sz) :
    (env.statRemote = none →
      (planeBody sep n_cores mult lsfargs inp env).1.filter isPut = [] ∧
      (planeBody sep n_cores mult lsfargs inp env).1.countP isSubmit = 1) ∧
    (∀ e : RemoteErr, env.statRemote = some e → isIOError e = true →
      Action.put (inp.pdir ++ ["ops.npy"]) ((rewriteOps sep inp).ops_path) ∈
        (planeBody sep n_cores mult lsfargs inp env).1 ∧
      Action.put (inp.fast_disk_orig ++
          [if inp.has_raw then "data_raw.bin" else "data.bin"])
        (unixPath sep (savePathParts inp ++
          [if inp.has_raw then "data_raw.bin" else "data.bin"])) ∈
        (planeBody sep n_cores mult lsfargs inp env).1 ∧
      (planeBody sep n_cores mult lsfargs inp env).1.countP isSubmit = 1) := by
  constructor
  · intro hstat
    have hp : probe env.statRemote = Except.ok false := by
      simp [probe, hstat]
    rw [planeBody_acts_eq sep n_cores mult lsfargs inp env false hp, hsz,
      binTransfers_no_copy]
    simp [isPut, isSubmit, submitAction, List.countP_cons]
  · intro e hstat hio
    have hp : probe env.statRemote = Except.ok true := by
      simp [probe, hstat, hio]
    rw [planeBody_acts_eq sep n_cores mult lsfargs inp env true hp, hsz]
    refine ⟨by simp, ?_, ?_⟩
    · cases hr : inp.has_raw <;> simp [binTransfers, hr]
    · simp [List.countP_append, List.countP_cons, isSubmit, submitAction,
        binTransfers_countP_submit]

theorem dispatch_idempotent_transfers_witness :
    (planeBody '/' 8 2 "" inpDemo envRemotePresent).1.filter isPut = [] ∧
    (planeBody '/' 8 2 "" inpDemo envRemotePresent).1.countP isSubmit = 1 :=
  (dispatch_idempotent_transfers '/' 8 2 "" inpDemo envRemotePresent
    700000000 rfl).1 rfl

/-! ### C7: forward-slash rendering of every rewritten key -/

/-- C7: after the loop body rewrote the descriptor, every path-valued key
it rewrote (remote base path, working paths, data-file paths,
descriptor-file path) is rendered with forward-slash separators, for both
host separator conventions (POSIX `/` and Windows `\`), given the pathlib
invariant that no path component contains the host separator. -/
theorem rewritten_paths_forward_slash (sep : Char) (n_cores : Nat)
    (mult : ℚ) (lsfargs : String) (inp : PlaneInputs) (env : PlaneEnv)
    (op : OpsPaths) (hsep : sep = '/' ∨ sep = '\\')
    (hroot : sepFree sep inp.save_path0_server)
    (hname : sep ∉ inp.save_folder_name.data)
    (hok : (planeBody sep n_cores mult lsfargs inp env).2 = Except.ok op) :
    op.save_path0 = joinSep '/' inp.save_path0_server ∧
    op.save_path = joinSep '/' (savePathParts inp) ∧
    op.fast_disk = joinSep '/' (savePathParts inp) ∧
    op.ops_path = joinSep '/' (savePathParts inp ++ ["ops.npy"]) ∧
    op.reg_file = joinSep '/' (savePathParts inp ++ ["data.bin"]) ∧
    (∀ s, op.raw_file = some s →
      s = joinSep '/' (savePathParts inp ++ ["data_raw.bin"])) ∧
    (∀ s, op.raw_file_chan2 = some s →
      s = joinSep '/' (savePathParts inp ++ ["data_chan2_raw.bin"])) ∧
    (∀ s, op.reg_file_chan2 = some s →
      s = joinSep '/' (savePathParts inp ++ ["data_chan2.bin"])) := by
  have hop := planeBody_ok_rewriteOps sep n_cores mult lsfargs inp env op hok
  subst hop
  have hsp := sepFree_savePathParts sep hsep inp hroot hname
  have hone : ∀ lit : String, sep ∉ lit.data →
      sepFree sep (savePathParts inp ++ [lit]) := by
    intro lit hl
    apply sepFree_append sep _ _ hsp
    intro p hp
    have hpl := List.mem_singleton.mp hp
    subst hpl
    exact hl
  have hops : sep ∉ ("ops.npy" : String).data := by
    rcases hsep with h1 | h1 <;> subst h1 <;> decide
  have hdbin : sep ∉ ("data.bin" : String).data := by
    rcases hsep with h1 | h1 <;> subst h1 <;> decide
  have hdraw : sep ∉ ("data_raw.bin" : String).data := by
    rcases hsep with h1 | h1 <;> subst h1 <;> decide
  have hdc2r : sep ∉ ("data_chan2_raw.bin" : String).data := by
    rcases hsep with h1 | h1 <;> subst h1 <;> decide
  have hdc2 : sep ∉ ("data_chan2.bin" : String).data := by
    rcases hsep with h1 | h1 <;> subst h1 <;> decide
  refine ⟨unixPath_eq_joinSep sep _ hroot,
    unixPath_eq_joinSep sep _ hsp,
    unixPath_eq_joinSep sep _ hsp,
    unixPath_eq_joinSep sep _ (hone "ops.npy" hops),
    unixPath_eq_joinSep sep _ (hone "data.bin" hdbin),
    ?_, ?_, ?_⟩
  · intro s h
    simp only [rewriteOps] at h
    cases hr : inp.has_raw <;> rw [hr] at h <;> simp at h
    rw [← h]
    exact unixPath_eq_joinSep sep _ (hone "data_raw.bin" hdraw)
  · intro s h
    simp only [rewriteOps] at h
    cases hr : inp.has_raw <;> cases h2 : inp.has_raw_chan2 <;>
      rw [hr, h2] at h <;> simp at h
    rw [← h]
    exact unixPath_eq_joinSep sep _ (hone "data_chan2_raw.bin" hdc2r)
  · intro s h
    simp only [rewriteOps] at h
    cases hr : inp.has_raw <;> cases h3 : inp.has_reg_chan2 <;>
      rw [hr, h3] at h <;> simp at h
    rw [← h]
    exact unixPath_eq_joinSep sep _ (hone "data_chan2.bin" hdc2)

/-- A unit of work on a Windows-flavoured local machine (components are
backslash-free, as pathlib guarantees). -/
def inpWin : PlaneInputs :=
  { save_path0_server := ["", "groups", "lab", "exp1"]
    save_folder_name := "suite2p"
    ipl := 2
    pdir := ["C:", "data", "suite2p", "plane2"]
    fast_disk_orig := ["C:", "fastdisk", "suite2p", "plane2"]
    has_raw := true
    has_raw_chan2 := false
    has_reg_chan2 := false }

theorem rewritten_paths_forward_slash_witness :
    (rewriteOps '\\' inpWin).save_path0 =
      joinSep '/' inpWin.save_path0_server ∧
    (rewriteOps '\\' inpWin).ops_path =
      joinSep '/' (savePathParts inpWin ++ ["ops.npy"]) :=
  ⟨(rewritten_paths_forward_slash '\\' 8 2 "" inpWin envRemotePresent
      (rewriteOps '\\' inpWin) (Or.inr rfl) (by decide) (by decide) rfl).1,
   (rewritten_paths_forward_slash '\\' 8 2 "" inpWin envRemotePresent
      (rewriteOps '\\' inpWin) (Or.inr rfl) (by decide) (by decide)
      rfl).2.2.2.1⟩

/-! ### C8: raw/registered exclusivity -/

theorem binTransfers_raw_no_regput (sep : Char) (inp : PlaneInputs)
    (copy : Bool) (hr : inp.has_raw = true) :
    (binTransfers sep inp copy).filter isRegPut = [] := by
  unfold binTransfers
  rw [hr]
  cases hc : copy <;> cases h2 : inp.has_raw_chan2 <;>
    simp [isRegPut, List.filter_append, getLast?_append_single]

theorem binTransfers_reg_no_rawput (sep : Char) (inp : PlaneInputs)
    (copy : Bool) (hr : inp.has_raw = false) :
    (binTransfers sep inp copy).filter isRawPut = [] := by
  unfold binTransfers
  rw [hr]
  cases hc : copy <;> cases h3 : inp.has_reg_chan2 <;>
    simp [isRawPut, List.filter_append, getLast?_append_single]

/-- C8: raw and registered transfers are mutually exclusive per unit of
work — when the descriptor has the raw-data key, the loop body never
performs a registered-data transfer, and when it does not, never a
raw-data transfer, whatever the remote state, the chan2 keys and the
sizing outcome. -/
theorem raw_registered_transfers_exclusive (sep : Char) (n_cores : Nat)
    (mult : ℚ) (lsfargs : String) (inp : PlaneInputs) (env : PlaneEnv) :
    (inp.has_raw = true →
      (planeBody sep n_cores mult lsfargs inp env).1.filter isRegPut = []) ∧
    (inp.has_raw = false →
      (planeBody sep n_cores mult lsfargs inp env).1.filter isRawPut = []) := by
  constructor
  · intro hr
    cases hp : probe env.statRemote with
    | error e =>
      rw [planeBody_probe_error sep n_cores mult lsfargs inp env e hp]
      rfl
    | ok copy =>
      rw [planeBody_acts_eq sep n_cores mult lsfargs inp env copy hp]
      cases hc : copy <;> cases hsz : env.localSize (sizingParts inp) <;>
        simp [isRegPut, List.filter_append, getLast?_append_single,
          submitAction, binTransfers_raw_no_regput sep inp _ hr]
  · intro hr
    cases hp : probe env.statRemote with
    | error e =>
      rw [planeBody_probe_error sep n_cores mult lsfargs inp env e hp]
      rfl
    | ok copy =>
      rw [planeBody_acts_eq sep n_cores mult lsfargs inp env copy hp]
      cases hc : copy <;> cases hsz : env.localSize (sizingParts inp) <;>
        simp [isRawPut, List.filter_append, getLast?_append_single,
          submitAction, binTransfers_reg_no_rawput sep inp _ hr]

theorem raw_registered_transfers_exclusive_witness :
    (planeBody '/' 8 2 "" inpRaw envRemotePresent).1.filter isRegPut = [] :=
  (raw_registered_transfers_exclusive '/' 8 2 "" inpRaw envRemotePresent).1
    rfl

end Suite2pServer
